import Mathlib

/-!
Shallow embedding of the beacon-kit block-verification core:
the execution-engine adapter (`NotifyForkchoiceUpdate`,
`VerifyAndNotifyNewPayload`), the `ProcessProposal` /
`VerifyIncomingBlock` / `verifyStateRoot` handlers of the blockchain
service, and the `StateDB` branch/save machinery.

External collaborators (the engine client RPCs, the blob processor, the
state-transition processor, SSZ decoding) are interfaces in the source;
they enter the embedding as oracle parameters whose replies drive the
control flow, exactly as the Go code branches on their results.
-/

namespace BeaconKit

/-- Model of the Go error values that flow through the verification
core.  `nonFatalWrap` models `errors.WrapNonFatal`; `fatal` models an
error that `errors.IsFatal` recognises as fatal; `other` models any
other opaque error (transport failures, undefined engine errors). -/
inductive GoError where
  | acceptedPayloadStatus : GoError
  | syncingPayloadStatus : GoError
  | invalidPayloadStatus : GoError
  | invalidBlockHashPayloadStatus : GoError
  | badBlockProduced : GoError
  | nilBlk : GoError
  | fatal : Nat → GoError
  | nonFatalWrap : GoError → GoError
  | other : Nat → GoError
  deriving DecidableEq, Repr

/-- `errors.Is(e, target)` over the wrap structure: an error matches the
target if it equals it or wraps an error that matches it. -/
def goErrorIs : GoError → GoError → Bool
  | GoError.nonFatalWrap inner, t =>
      (GoError.nonFatalWrap inner = t : Bool) || goErrorIs inner t
  | e, t => (e = t : Bool)

/-- `errors.Is` lifted to a possibly-nil Go error. -/
def errorsIs : Option GoError → GoError → Bool
  | none, _ => false
  | some e, t => goErrorIs e t

/-- `errors.IsFatal`: only errors wrapped as fatal count; a nil error and
every non-fatal wrap are not fatal. -/
def isFatal : Option GoError → Bool
  | none => false
  | some (GoError.fatal _) => true
  | some _ => false

section EngineAdapter

/-- The forkchoice state relayed to the execution client: head, safe and
finalized execution-block hashes (hashes modelled as `Nat`). -/
structure ForkchoiceState where
  headBlockHash : Nat
  safeBlockHash : Nat
  finalizedBlockHash : Nat
  deriving DecidableEq, Repr

/-- `engineprimitives.ForkchoiceUpdateRequest`: the forkchoice state
plus whether payload-build attributes are attached and the fork
version. -/
structure ForkchoiceUpdateRequest where
  state : ForkchoiceState
  hasPayloadAttributes : Bool
  forkVersion : Nat
  deriving DecidableEq, Repr

/-- One reply of the execution client to `engine_forkchoiceUpdated`:
the payload ID and latest valid hash it returned together with the
classified status error of the client (`nil` models `VALID`). -/
structure FcuReply where
  payloadID : Option Nat
  latestValidHash : Option Nat
  err : Option GoError
  deriving DecidableEq, Repr

/-- The value `NotifyForkchoiceUpdate` hands back, plus the trace of
`ForkchoiceUpdated` requests it issued (one oracle reply is consumed
per request). -/
structure FcuOutcome where
  payloadID : Option Nat
  latestValidHash : Option Nat
  err : Option GoError
  sent : List ForkchoiceUpdateRequest
  deriving DecidableEq, Repr

/-- The request the recovery path retries with: the head block hash is
overwritten with the safe block hash (`req.State.HeadBlockHash =
req.State.SafeBlockHash`). -/
def retryRequest (req : ForkchoiceUpdateRequest) : ForkchoiceUpdateRequest :=
  { req with state := { req.state with
      headBlockHash := req.state.safeBlockHash } }

/-- `Engine.NotifyForkchoiceUpdate`.  The execution client is an oracle
list of replies consumed one per RPC.  On `INVALID` or
`INVALID_BLOCK_HASH` the head is set to the safe hash and the function
recurses on the rest of the oracle, mirroring the Go self-recursion; an
exhausted oracle stands for a client that never answers again and is
reported as an undefined engine error. -/
def notifyForkchoiceUpdate :
    List FcuReply → ForkchoiceUpdateRequest → FcuOutcome
  | [], _ => ⟨none, none, some (GoError.other 0), []⟩
  | reply :: rest, req =>
    if errorsIs reply.err GoError.acceptedPayloadStatus
        || errorsIs reply.err GoError.syncingPayloadStatus then
      ⟨reply.payloadID, none, none, [req]⟩
    else if errorsIs reply.err GoError.invalidPayloadStatus
        || errorsIs reply.err GoError.invalidBlockHashPayloadStatus then
      let retried := notifyForkchoiceUpdate rest (retryRequest req)
      if retried.err ≠ none then
        ⟨none, none, retried.err, req :: retried.sent⟩
      else
        ⟨retried.payloadID, retried.latestValidHash,
          some GoError.badBlockProduced, req :: retried.sent⟩
    else if reply.err ≠ none then
      ⟨none, none, reply.err, [req]⟩
    else
      ⟨reply.payloadID, reply.latestValidHash, none, [req]⟩

/-- `engineprimitives.NewPayloadRequest`, reduced to the fields the
adapter reads: the payload's block hash and parent hash and the
`SkipIfExists` / `Optimistic` flags. -/
structure NewPayloadRequest where
  payloadBlockHash : Nat
  payloadParentHash : Nat
  skipIfExists : Bool
  optimistic : Bool
  deriving DecidableEq, Repr

/-- One reply of `ee.ec.HeaderByHash`: the header the client knows for
the hash (`none` when the block is unknown) and the RPC error. -/
structure HeaderByHashReply where
  header : Option Nat
  err : Option GoError
  deriving DecidableEq, Repr

/-- One reply of `ee.ec.NewPayload`: the last valid hash and the
classified payload-status error (`nil` models `VALID`). -/
structure NewPayloadReply where
  lastValidHash : Option Nat
  err : Option GoError
  deriving DecidableEq, Repr

/-- What `VerifyAndNotifyNewPayload` produced: the error it returned
and whether the `NewPayload` RPC was actually issued. -/
structure NewPayloadOutcome where
  err : Option GoError
  sentNewPayload : Bool
  deriving DecidableEq, Repr

/-- `Engine.VerifyAndNotifyNewPayload`.  `hashesErr` is the result of
`req.HasValidVersionedAndBlockHashes()`, `headerReply` the result of
`ee.ec.HeaderByHash` on the payload's block hash, `npReply` the result
of `ee.ec.NewPayload`.  In the source the `SkipIfExists` branch only
logs under `header != nil && err != nil` and then returns nil
unconditionally, so the header reply never influences the result. -/
def verifyAndNotifyNewPayload
    (hashesErr : Option GoError)
    (headerReply : HeaderByHashReply)
    (npReply : NewPayloadReply)
    (req : NewPayloadRequest) : NewPayloadOutcome :=
  match hashesErr with
  | some e => ⟨some e, false⟩
  | none =>
    if req.skipIfExists then
      let _logged := headerReply.header ≠ none ∧ headerReply.err ≠ none
      ⟨none, false⟩
    else
      if errorsIs npReply.err GoError.acceptedPayloadStatus
          || errorsIs npReply.err GoError.syncingPayloadStatus then
        if req.optimistic then ⟨none, true⟩ else ⟨npReply.err, true⟩
      else if errorsIs npReply.err GoError.invalidPayloadStatus
          || errorsIs npReply.err GoError.invalidBlockHashPayloadStatus then
        ⟨some GoError.badBlockProduced, true⟩
      else
        ⟨npReply.err, true⟩

end EngineAdapter

section BlockchainService

/-- ABCI `ProcessProposalResponse` status. -/
inductive ProposalStatus where
  | accept
  | reject
  deriving DecidableEq, Repr

/-- `createProcessProposalResponse`: starts from `REJECT` and, whenever
`errors.IsFatal(err)` is false, switches the status to `ACCEPT` and
clears the error, exactly as the source does. -/
def createProcessProposalResponse (err : Option GoError) :
    ProposalStatus × Option GoError :=
  let status := ProposalStatus.reject
  if isFatal err = false then (ProposalStatus.accept, none)
  else (status, err)

/-- The decoded blob sidecar list, reduced to what `ProcessProposal`
inspects: `IsNil()` and `Len()`. -/
structure BlobSidecars where
  isNil : Bool
  len : Nat
  deriving DecidableEq, Repr

/-- The collaborator invocations `ProcessProposal` can make, in the
order it makes them. -/
inductive ProposalStep where
  | verifySidecarsCall
  | verifyIncomingBlockCall
  deriving DecidableEq, Repr

/-- `Service.ProcessProposal`.  The two decoders, the blob processor
and `VerifyIncomingBlock` are oracle results; the returned trace lists
which collaborators were invoked. -/
def processProposal
    (decodeBlock : Except GoError Unit)
    (decodeSidecars : Except GoError BlobSidecars)
    (verifySidecarsRes : Option GoError)
    (verifyIncomingRes : Option GoError) :
    (ProposalStatus × Option GoError) × List ProposalStep :=
  match decodeBlock with
  | Except.error e =>
      (createProcessProposalResponse (some (GoError.nonFatalWrap e)), [])
  | Except.ok _ =>
    match decodeSidecars with
    | Except.error e =>
        (createProcessProposalResponse (some (GoError.nonFatalWrap e)), [])
    | Except.ok sidecars =>
      if sidecars.isNil = false ∧ sidecars.len > 0 then
        match verifySidecarsRes with
        | some e =>
            (createProcessProposalResponse (some (GoError.nonFatalWrap e)),
              [ProposalStep.verifySidecarsCall])
        | none =>
          match verifyIncomingRes with
          | some e =>
              (createProcessProposalResponse (some (GoError.nonFatalWrap e)),
                [ProposalStep.verifySidecarsCall,
                  ProposalStep.verifyIncomingBlockCall])
          | none =>
              (createProcessProposalResponse none,
                [ProposalStep.verifySidecarsCall,
                  ProposalStep.verifyIncomingBlockCall])
      else
        match verifyIncomingRes with
        | some e =>
            (createProcessProposalResponse (some (GoError.nonFatalWrap e)),
              [ProposalStep.verifyIncomingBlockCall])
        | none =>
            (createProcessProposalResponse none,
              [ProposalStep.verifyIncomingBlockCall])

/-- `transition.Context`, the options record handed to the state
processor. -/
structure TransitionContext where
  optimisticEngine : Bool
  skipPayloadVerification : Bool
  skipValidateResult : Bool
  skipValidateRandao : Bool
  proposerAddress : List Nat
  consensusTime : Nat
  deriving DecidableEq, Repr

/-- The context `verifyStateRoot` constructs: non-optimistic engine and
every verification enabled. -/
def verificationContext (proposerAddress : List Nat) (consensusTime : Nat) :
    TransitionContext :=
  { optimisticEngine := false
    skipPayloadVerification := false
    skipValidateResult := false
    skipValidateRandao := false
    proposerAddress := proposerAddress
    consensusTime := consensusTime }

/-- `Service.verifyStateRoot`: run the state processor's `Transition`
on the branched state with the verification context and swallow
`ErrAcceptedPayloadStatus` via `errors.Is`; every other error is handed
back unchanged. -/
def verifyStateRoot {StateT BlockT : Type}
    (transitionFn : TransitionContext → StateT → BlockT → Option GoError)
    (st : StateT) (blk : BlockT)
    (consensusTime : Nat) (proposerAddress : List Nat) : Option GoError :=
  let err := transitionFn (verificationContext proposerAddress consensusTime)
    st blk
  if errorsIs err GoError.acceptedPayloadStatus then none else err

/-- The background payload-build tasks `VerifyIncomingBlock` can
spawn. -/
inductive BuildTask where
  | rebuildForRejectedBlock
  | optimisticBuild
  deriving DecidableEq, Repr

/-- `Service.VerifyIncomingBlock`.  `copyState` models
`preState.Copy()`, `getLatestHeaderTimestamp` the
`GetLatestExecutionPayloadHeader` read (reduced to the timestamp the
code extracts), `shouldBuild` the `shouldBuildOptimisticPayloads`
check.  On a rejected block with builds enabled the source reassigns
`err` to the result of the header read before `return err`, so a
failed header read replaces the rejection error and a successful one
clears it. -/
def verifyIncomingBlock {StateT BlockT : Type}
    (transitionFn : TransitionContext → StateT → BlockT → Option GoError)
    (copyState : StateT → StateT)
    (getLatestHeaderTimestamp : StateT → Except GoError Nat)
    (shouldBuild : Bool)
    (blkIsNil : Bool)
    (preState : StateT) (blk : BlockT)
    (consensusTime : Nat) (proposerAddress : List Nat) :
    Option GoError × List BuildTask :=
  if blkIsNil then (some (GoError.nonFatalWrap GoError.nilBlk), [])
  else
    let postState := copyState preState
    match verifyStateRoot transitionFn postState blk
        consensusTime proposerAddress with
    | some e =>
      if shouldBuild then
        match getLatestHeaderTimestamp preState with
        | Except.error he => (some he, [])
        | Except.ok _ => (none, [BuildTask.rebuildForRejectedBlock])
      else (some e, [])
    | none =>
      if shouldBuild then
        match getLatestHeaderTimestamp postState with
        | Except.error he => (some he, [])
        | Except.ok _ => (none, [BuildTask.optimisticBuild])
      else (none, [])

end BlockchainService

section StateStore

/-- Association-list lookup: the first binding for the key wins. -/
def lookupKV : List (Nat × Nat) → Nat → Option Nat
  | [], _ => none
  | (k, v) :: rest, key => if k = key then some v else lookupKV rest key

/-- Modelled from the spec: the cosmos-sdk context a `StateDB` reads
and writes through.  The persistence layer is outside this repository;
the spec describes it as "an abstract versioned map with cached
overlays" whose branches buffer writes that "become visible only on
`commit()`".  A context is the committed data it was anchored at plus
the writes buffered through it, newest first. -/
structure SdkContext where
  base : List (Nat × Nat)
  buffered : List (Nat × Nat)
  deriving DecidableEq, Repr

/-- A read through a context: buffered writes shadow the base data. -/
def ctxGet (c : SdkContext) (key : Nat) : Option Nat :=
  match lookupKV c.buffered key with
  | some v => some v
  | none => lookupKV c.base key

/-- A write through a context is buffered in the overlay. -/
def ctxSet (c : SdkContext) (key v : Nat) : SdkContext :=
  { c with buffered := (key, v) :: c.buffered }

/-- Modelled from the spec: `CacheContext` — a fresh overlay anchored
at the parent's current view, with no buffered writes of its own. -/
def cacheContext (c : SdkContext) : SdkContext :=
  { base := c.buffered ++ c.base, buffered := [] }

/-- Modelled from the spec: the effect of the `write` closure returned
by `CacheContext` — flush the overlay's buffered writes into the
parent context. -/
def writeBack (child parent : SdkContext) : SdkContext :=
  { parent with buffered := child.buffered ++ parent.buffered }

/-- `statedb.StateDB`, reduced to the fields the claims exercise: the
context it operates through and whether the `write` closure installed
by `Copy` is present (`false` models the nil function pointer). -/
structure StateDB where
  ctx : SdkContext
  write : Bool
  deriving DecidableEq, Repr

/-- `statedb.New`: a fresh store with a nil context and no `write`
closure; the nil context is modelled as the empty context. -/
def newStateDB : StateDB :=
  { ctx := { base := [], buffered := [] }, write := false }

/-- `StateDB.WithContext`: shallow struct copy (`cpy := *s`) with the
context replaced — the `write` field is carried over unchanged. -/
def withContext (s : StateDB) (c : SdkContext) : StateDB :=
  { s with ctx := c }

/-- `StateDB.Copy`: derive a cached context from the current one via
`CacheContext`, rebind through `WithContext`, and install the write
closure. -/
def copy (s : StateDB) : StateDB :=
  let cctx := cacheContext s.ctx
  let ss := withContext s cctx
  { ss with write := true }

/-- `StateDB.Save`: calls the write closure only when it is non-nil;
its effect on the parent context is flushing this store's buffered
writes, and with a nil closure the parent is untouched. -/
def save (s : StateDB) (parent : SdkContext) : SdkContext :=
  if s.write then writeBack s.ctx parent else parent

/-- Any of the typed setters, performed through the store's context. -/
def stateDBSet (s : StateDB) (key v : Nat) : StateDB :=
  { s with ctx := ctxSet s.ctx key v }

/-- Any of the typed getters, performed through the store's context. -/
def stateDBGet (s : StateDB) (key : Nat) : Option Nat :=
  ctxGet s.ctx key

/-- The operations a client may perform against a branch of the
committed state. -/
inductive BranchOp where
  | opWrite (key v : Nat)
  | opSave
  | opDiscard
  deriving DecidableEq, Repr

/-- A committed context together with a live branch obtained from it
via `Copy` (`none` once the branch has been discarded). -/
structure BranchWorld where
  committed : SdkContext
  branch : Option StateDB
  deriving DecidableEq, Repr

/-- Open a branch over a committed context, exactly as
`VerifyIncomingBlock` does: bind a store to the committed context and
`Copy` it. -/
def openBranch (parent : SdkContext) : BranchWorld :=
  { committed := parent
    branch := some (copy (withContext newStateDB parent)) }

/-- One client operation on the world: writes go to the branch (and
nowhere else), `Save` publishes the branch into the committed context,
`Discard` drops the branch. -/
def stepBranch (w : BranchWorld) : BranchOp → BranchWorld
  | BranchOp.opWrite k v =>
      { w with branch := w.branch.map (fun b => stateDBSet b k v) }
  | BranchOp.opSave =>
      match w.branch with
      | some b => { w with committed := save b w.committed }
      | none => w
  | BranchOp.opDiscard => { w with branch := none }

/-- Run a sequence of branch operations. -/
def runBranch (w : BranchWorld) (ops : List BranchOp) : BranchWorld :=
  ops.foldl stepBranch w

end StateStore

end BeaconKit

namespace BeaconKit

/-- A sample forkchoice request used for concrete evaluations. -/
def sampleFcuRequest : ForkchoiceUpdateRequest :=
  { state := { headBlockHash := 10, safeBlockHash := 7, finalizedBlockHash := 3 }
    hasPayloadAttributes := true
    forkVersion := 4 }

/-- An `INVALID` reply of the execution client. -/
def invalidReply : FcuReply :=
  { payloadID := none, latestValidHash := some 7
    err := some GoError.invalidPayloadStatus }

/-- A `VALID` reply of the execution client carrying a payload ID. -/
def validReply : FcuReply :=
  { payloadID := some 42, latestValidHash := some 9, err := none }

/-- A sample context standing for committed data. -/
def sampleParent : SdkContext := { base := [(0, 5)], buffered := [] }

/-- Unfolding `NotifyForkchoiceUpdate` at an `INVALID` reply: the trace
is this request followed by whatever the retry with `head := safe`
sends. -/
theorem notifyFcu_invalidReply_sent (rest : List FcuReply)
    (req : ForkchoiceUpdateRequest) :
    (notifyForkchoiceUpdate (invalidReply :: rest) req).sent =
      req :: (notifyForkchoiceUpdate rest (retryRequest req)).sent := by
  show (let retried := notifyForkchoiceUpdate rest (retryRequest req)
    if retried.err ≠ none then
      (⟨none, none, retried.err, req :: retried.sent⟩ : FcuOutcome)
    else
      ⟨retried.payloadID, retried.latestValidHash,
        some GoError.badBlockProduced, req :: retried.sent⟩).sent =
    req :: (notifyForkchoiceUpdate rest (retryRequest req)).sent
  by_cases h : (notifyForkchoiceUpdate rest (retryRequest req)).err = none
  · simp [h]
  · simp [h]

/-- C1: the claim says a non-fatal error in `ProcessProposal` yields a
`REJECT` response with a nil RPC error, but `createProcessProposalResponse`
switches the status to `ACCEPT` whenever the error is not fatal — here a
proposal whose beacon-block transaction fails to decode with a non-fatal
error is answered with `ACCEPT` and a nil RPC error. -/
theorem processProposal_nonFatal_decode_error_accepted :
    processProposal (Except.error (GoError.other 7))
        (Except.ok { isNil := true, len := 0 }) none none =
      ((ProposalStatus.accept, none), []) := by
  rfl

/-- C2: the claim says `SkipIfExists` short-circuits only when the block
is already known to the execution client, but the source returns nil
unconditionally in the `SkipIfExists` branch — here the client does not
know the block (`HeaderByHash` returns no header and an error) and would
even classify the payload `INVALID`, yet `VerifyAndNotifyNewPayload`
returns nil without ever sending `NewPayload`. -/
theorem newPayload_skipIfExists_skips_unknown_block :
    verifyAndNotifyNewPayload none
        { header := none, err := some (GoError.other 3) }
        { lastValidHash := none, err := some GoError.invalidPayloadStatus }
        { payloadBlockHash := 77, payloadParentHash := 66,
          skipIfExists := true, optimistic := false } =
      { err := none, sentNewPayload := false } := by
  rfl

/-- C3 counterexample: with an execution client that replies `INVALID`
twice before `VALID`, `NotifyForkchoiceUpdate` issues three
`ForkchoiceUpdated` RPCs — the second `INVALID` reply does trigger a
further recursion, so the adapter does not stop at one retry. -/
theorem notifyForkchoiceUpdate_not_single_retry :
    ¬ ((notifyForkchoiceUpdate [invalidReply, invalidReply, validReply]
        sampleFcuRequest).sent.length ≤ 2) := by
  decide

/-- C3 amended: `NotifyForkchoiceUpdate` retries once per `INVALID`
reply, recursing with `head := safe` for as long as the execution
client keeps replying `INVALID`, and terminates as soon as a
non-`INVALID` reply arrives: against `k` `INVALID` replies followed by
a `VALID` one it issues exactly `k + 1` RPCs. -/
theorem notifyForkchoiceUpdate_retries_per_invalid (k : Nat)
    (req : ForkchoiceUpdateRequest) :
    (notifyForkchoiceUpdate
        (List.replicate k invalidReply ++ [validReply]) req).sent.length =
      k + 1 := by
  induction k generalizing req with
  | zero => rfl
  | succ n ih =>
      rw [List.replicate_succ, List.cons_append, notifyFcu_invalidReply_sent,
        List.length_cons, ih (retryRequest req)]

/-- C4: `verifyStateRoot` hands the state processor a context with
`OptimisticEngine` false and every verification enabled, returns nil
exactly when the transition succeeds or fails only with
`ErrAcceptedPayloadStatus`, and returns every other transition error
unchanged. -/
theorem verifyStateRoot_swallows_only_accepted {StateT BlockT : Type}
    (transitionFn : TransitionContext → StateT → BlockT → Option GoError)
    (st : StateT) (blk : BlockT) (consensusTime : Nat)
    (proposerAddress : List Nat) :
    ((verificationContext proposerAddress consensusTime).optimisticEngine
        = false
      ∧ (verificationContext proposerAddress
          consensusTime).skipPayloadVerification = false
      ∧ (verificationContext proposerAddress consensusTime).skipValidateResult
        = false
      ∧ (verificationContext proposerAddress consensusTime).skipValidateRandao
        = false)
    ∧ (verifyStateRoot transitionFn st blk consensusTime proposerAddress = none
      ↔ (transitionFn (verificationContext proposerAddress consensusTime)
            st blk = none
        ∨ errorsIs (transitionFn
              (verificationContext proposerAddress consensusTime) st blk)
            GoError.acceptedPayloadStatus = true))
    ∧ (∀ e : GoError,
        transitionFn (verificationContext proposerAddress consensusTime) st blk
          = some e →
        errorsIs (some e) GoError.acceptedPayloadStatus = false →
        verifyStateRoot transitionFn st blk consensusTime proposerAddress
          = some e) := by
  refine ⟨⟨rfl, rfl, rfl, rfl⟩, ?_, ?_⟩
  · show (if errorsIs (transitionFn
        (verificationContext proposerAddress consensusTime) st blk)
        GoError.acceptedPayloadStatus = true then none
      else transitionFn (verificationContext proposerAddress consensusTime)
        st blk) = none ↔ _
    cases h : transitionFn (verificationContext proposerAddress consensusTime)
        st blk with
    | none => simp [errorsIs]
    | some e =>
        by_cases ha : errorsIs (some e) GoError.acceptedPayloadStatus = true
        · simp [ha]
        · simp [ha, Bool.not_eq_true] at *
  · intro e he ha
    show (if errorsIs (transitionFn
        (verificationContext proposerAddress consensusTime) st blk)
        GoError.acceptedPayloadStatus = true then none
      else transitionFn (verificationContext proposerAddress consensusTime)
        st blk) = some e
    rw [he, ha]
    simp

/-- C4 witness: a transition that fails with a wrapped
`ErrStateRootMismatch` is handed back unchanged by `verifyStateRoot`. -/
theorem verifyStateRoot_swallows_only_accepted_witness :
    verifyStateRoot
        (fun _ (_ : Unit) (_ : Unit) =>
          some (GoError.nonFatalWrap (GoError.other 11))) () () 5 [1, 2]
      = some (GoError.nonFatalWrap (GoError.other 11)) :=
  (verifyStateRoot_swallows_only_accepted
    (fun _ (_ : Unit) (_ : Unit) =>
      some (GoError.nonFatalWrap (GoError.other 11))) () () 5 [1, 2]).2.2
    (GoError.nonFatalWrap (GoError.other 11)) rfl (by decide)

/-- C5: classification of the execution-client replies by
`NotifyForkchoiceUpdate`: `VALID` returns the payload ID and latest
valid hash without error; `SYNCING`/`ACCEPTED` return the payload ID
with a nil latest-valid-hash and no error; `INVALID` and
`INVALID_BLOCK_HASH` retry with `head := safe` and, when the retry
succeeds, surface `ErrBadBlockProduced`; every other error is returned
as-is. -/
theorem notifyForkchoiceUpdate_classification
    (req : ForkchoiceUpdateRequest) (rest : List FcuReply)
    (pid lvh pid2 lvh2 : Option Nat) (e : GoError) :
    (notifyForkchoiceUpdate
        (({ payloadID := pid, latestValidHash := lvh, err := none } : FcuReply)
          :: rest) req = ⟨pid, lvh, none, [req]⟩)
    ∧ (e = GoError.acceptedPayloadStatus ∨ e = GoError.syncingPayloadStatus →
        notifyForkchoiceUpdate
          (({ payloadID := pid, latestValidHash := lvh, err := some e } :
              FcuReply) :: rest) req = ⟨pid, none, none, [req]⟩)
    ∧ (e = GoError.invalidPayloadStatus
        ∨ e = GoError.invalidBlockHashPayloadStatus →
        notifyForkchoiceUpdate
          (({ payloadID := pid, latestValidHash := lvh, err := some e } :
              FcuReply) ::
            ({ payloadID := pid2, latestValidHash := lvh2, err := none } :
              FcuReply) :: rest) req
          = ⟨pid2, lvh2, some GoError.badBlockProduced,
              [req, retryRequest req]⟩)
    ∧ (errorsIs (some e) GoError.acceptedPayloadStatus = false →
        errorsIs (some e) GoError.syncingPayloadStatus = false →
        errorsIs (some e) GoError.invalidPayloadStatus = false →
        errorsIs (some e) GoError.invalidBlockHashPayloadStatus = false →
        notifyForkchoiceUpdate
          (({ payloadID := pid, latestValidHash := lvh, err := some e } :
              FcuReply) :: rest) req = ⟨none, none, some e, [req]⟩) := by
  refine ⟨rfl, ?_, ?_, ?_⟩
  · rintro (rfl | rfl) <;> rfl
  · rintro (rfl | rfl) <;> rfl
  · intro h1 h2 h3 h4
    simp only [notifyForkchoiceUpdate]
    simp [h1, h2, h3, h4]

/-- C5 witness: concrete instances of the `SYNCING`, `INVALID`-retry
and transport-error classifications. -/
theorem notifyForkchoiceUpdate_classification_witness :
    notifyForkchoiceUpdate
        [⟨some 1, some 2, some GoError.syncingPayloadStatus⟩]
        sampleFcuRequest = ⟨some 1, none, none, [sampleFcuRequest]⟩
    ∧ notifyForkchoiceUpdate
        [⟨some 1, some 2, some GoError.invalidPayloadStatus⟩,
          ⟨some 3, some 4, none⟩] sampleFcuRequest
        = ⟨some 3, some 4, some GoError.badBlockProduced,
            [sampleFcuRequest, retryRequest sampleFcuRequest]⟩
    ∧ notifyForkchoiceUpdate [⟨some 1, some 2, some (GoError.other 9)⟩]
        sampleFcuRequest
        = ⟨none, none, some (GoError.other 9), [sampleFcuRequest]⟩ :=
  ⟨(notifyForkchoiceUpdate_classification sampleFcuRequest [] (some 1) (some 2)
      none none GoError.syncingPayloadStatus).2.1 (Or.inr rfl),
    (notifyForkchoiceUpdate_classification sampleFcuRequest [] (some 1) (some 2)
      (some 3) (some 4) GoError.invalidPayloadStatus).2.2.1 (Or.inl rfl),
    (notifyForkchoiceUpdate_classification sampleFcuRequest [] (some 1) (some 2)
      none none (GoError.other 9)).2.2.2 (by decide) (by decide) (by decide)
      (by decide)⟩

/-- C6: when `NewPayload` replies `SYNCING` or `ACCEPTED`,
`VerifyAndNotifyNewPayload` returns nil when the request's `Optimistic`
flag is set and otherwise returns that (non-fatal) status error itself;
on `INVALID` or `INVALID_BLOCK_HASH` it returns `ErrBadBlockProduced`. -/
theorem verifyAndNotifyNewPayload_status_classification
    (req : NewPayloadRequest) (headerReply : HeaderByHashReply)
    (lvh : Option Nat) (e : GoError)
    (hskip : req.skipIfExists = false) :
    (e = GoError.acceptedPayloadStatus ∨ e = GoError.syncingPayloadStatus →
      verifyAndNotifyNewPayload none headerReply ⟨lvh, some e⟩ req
        = ⟨if req.optimistic then none else some e, true⟩
      ∧ isFatal (some e) = false)
    ∧ (e = GoError.invalidPayloadStatus
        ∨ e = GoError.invalidBlockHashPayloadStatus →
      verifyAndNotifyNewPayload none headerReply ⟨lvh, some e⟩ req
        = ⟨some GoError.badBlockProduced, true⟩) := by
  obtain ⟨bh, ph, sk, opt⟩ := req
  obtain rfl : sk = false := hskip
  constructor
  · rintro (rfl | rfl) <;> cases opt <;> exact ⟨rfl, rfl⟩
  · rintro (rfl | rfl) <;> rfl

/-- C6 witness: a non-optimistic request gets the `ACCEPTED` status
back as its error, and an `INVALID` reply yields
`ErrBadBlockProduced`. -/
theorem verifyAndNotifyNewPayload_status_classification_witness :
    (verifyAndNotifyNewPayload none ⟨none, none⟩
        ⟨none, some GoError.acceptedPayloadStatus⟩
        { payloadBlockHash := 1, payloadParentHash := 2,
          skipIfExists := false, optimistic := false }
      = ⟨some GoError.acceptedPayloadStatus, true⟩
      ∧ isFatal (some GoError.acceptedPayloadStatus) = false)
    ∧ verifyAndNotifyNewPayload none ⟨none, none⟩
        ⟨none, some GoError.invalidBlockHashPayloadStatus⟩
        { payloadBlockHash := 1, payloadParentHash := 2,
          skipIfExists := false, optimistic := true }
      = ⟨some GoError.badBlockProduced, true⟩ :=
  ⟨(verifyAndNotifyNewPayload_status_classification
      { payloadBlockHash := 1, payloadParentHash := 2,
        skipIfExists := false, optimistic := false } ⟨none, none⟩ none
      GoError.acceptedPayloadStatus rfl).1 (Or.inl rfl),
    (verifyAndNotifyNewPayload_status_classification
      { payloadBlockHash := 1, payloadParentHash := 2,
        skipIfExists := false, optimistic := true } ⟨none, none⟩ none
      GoError.invalidBlockHashPayloadStatus rfl).2 (Or.inr rfl)⟩

/-- C7: in `ProcessProposal` the blob processor's `VerifySidecars` runs
exactly when the decoded sidecar list is non-nil and non-empty, and a
sidecar verification failure makes the handler return before
`VerifyIncomingBlock` — and with it the state transition — runs. -/
theorem processProposal_sidecar_guard (sidecars : BlobSidecars)
    (verifySidecarsRes verifyIncomingRes : Option GoError) :
    (ProposalStep.verifySidecarsCall ∈
        (processProposal (Except.ok ()) (Except.ok sidecars)
          verifySidecarsRes verifyIncomingRes).2
      ↔ (sidecars.isNil = false ∧ sidecars.len > 0))
    ∧ (∀ e : GoError, sidecars.isNil = false → sidecars.len > 0 →
        verifySidecarsRes = some e →
        ProposalStep.verifyIncomingBlockCall ∉
          (processProposal (Except.ok ()) (Except.ok sidecars)
            verifySidecarsRes verifyIncomingRes).2) := by
  constructor
  · by_cases hg : sidecars.isNil = false ∧ sidecars.len > 0
    · cases verifySidecarsRes <;> cases verifyIncomingRes <;>
        simp [processProposal, hg]
    · cases verifyIncomingRes <;> simp [processProposal, hg]
  · intro e h1 h2 h3
    subst h3
    simp [processProposal, h1, h2]

/-- C7 witness: two sidecars whose verification fails stop the handler
before `VerifyIncomingBlock` is invoked. -/
theorem processProposal_sidecar_guard_witness :
    ProposalStep.verifyIncomingBlockCall ∉
      (processProposal (Except.ok ()) (Except.ok { isNil := false, len := 2 })
        (some (GoError.other 4)) none).2 :=
  (processProposal_sidecar_guard { isNil := false, len := 2 }
    (some (GoError.other 4)) none).2 (GoError.other 4) rfl (by decide) rfl

/-- Committed data is untouched by any branch operation other than
`Save`. -/
theorem runBranch_committed (w : BranchWorld) (ops : List BranchOp)
    (h : BranchOp.opSave ∉ ops) :
    (runBranch w ops).committed = w.committed := by
  induction ops generalizing w with
  | nil => rfl
  | cons op rest ih =>
      rw [List.mem_cons] at h
      push_neg at h
      obtain ⟨hop, hrest⟩ := h
      have hstep : (stepBranch w op).committed = w.committed := by
        cases op with
        | opWrite k v => rfl
        | opSave => exact absurd rfl hop
        | opDiscard => rfl
      calc (runBranch w (op :: rest)).committed
          = (runBranch (stepBranch w op) rest).committed := rfl
        _ = (stepBranch w op).committed := ih (stepBranch w op) hrest
        _ = w.committed := hstep

/-- C8: writes performed on a branch obtained via `Copy` stay buffered
in the branch and are invisible to the parent committed context as long
as `Save` is not called; in particular discarding the branch without
saving leaves the committed context — and hence any hash-tree-root
computed from it — unchanged. -/
theorem branch_writes_invisible_until_save (parent : SdkContext)
    (ops : List BranchOp) (h : BranchOp.opSave ∉ ops) :
    (runBranch (openBranch parent) ops).committed = parent
    ∧ ∀ htr : SdkContext → Nat,
        htr (runBranch (openBranch parent) ops).committed = htr parent := by
  have hc : (runBranch (openBranch parent) ops).committed = parent :=
    runBranch_committed (openBranch parent) ops h
  exact ⟨hc, fun htr => by rw [hc]⟩

/-- C8 witness: two branch writes followed by a discard leave the
committed context untouched. -/
theorem branch_writes_invisible_until_save_witness :
    BranchOp.opSave ∉
      [BranchOp.opWrite 0 1, BranchOp.opWrite 2 3, BranchOp.opDiscard]
    ∧ (runBranch (openBranch sampleParent)
        [BranchOp.opWrite 0 1, BranchOp.opWrite 2 3,
          BranchOp.opDiscard]).committed = sampleParent :=
  ⟨by decide,
    (branch_writes_invisible_until_save sampleParent
      [BranchOp.opWrite 0 1, BranchOp.opWrite 2 3, BranchOp.opDiscard]
      (by decide)).1⟩

/-- C9: when `verifyStateRoot` rejects the block, optimistic payload
builds are enabled and the pre-state header read fails,
`VerifyIncomingBlock` returns the header-read error in place of the
original verification error and spawns no rebuild task, so the caller
observes a reason different from the rejection cause whenever the two
errors differ. -/
theorem verifyIncomingBlock_header_error_masks_rejection
    {StateT BlockT : Type}
    (transitionFn : TransitionContext → StateT → BlockT → Option GoError)
    (copyState : StateT → StateT)
    (getLatestHeaderTimestamp : StateT → Except GoError Nat)
    (preState : StateT) (blk : BlockT) (consensusTime : Nat)
    (proposerAddress : List Nat) (e he : GoError)
    (hreject : verifyStateRoot transitionFn (copyState preState) blk
        consensusTime proposerAddress = some e)
    (hheader : getLatestHeaderTimestamp preState = Except.error he) :
    verifyIncomingBlock transitionFn copyState getLatestHeaderTimestamp
        true false preState blk consensusTime proposerAddress = (some he, [])
    ∧ (he ≠ e →
        (verifyIncomingBlock transitionFn copyState getLatestHeaderTimestamp
          true false preState blk consensusTime proposerAddress).1
          ≠ some e) := by
  have h1 : verifyIncomingBlock transitionFn copyState getLatestHeaderTimestamp
      true false preState blk consensusTime proposerAddress
        = (some he, []) := by
    simp [verifyIncomingBlock, hreject, hheader]
  refine ⟨h1, fun hne => ?_⟩
  rw [h1]
  simp [hne]

/-- C9 witness: a concrete rejected block whose pre-state header read
fails: the returned error is the header-read error, no rebuild is
spawned, and the rejection cause is not observable. -/
theorem verifyIncomingBlock_header_error_masks_rejection_witness :
    verifyIncomingBlock (fun _ (_ : Unit) (_ : Unit) => some (GoError.other 1))
        (fun s => s) (fun _ => Except.error (GoError.other 2)) true false () ()
        3 [4] = (some (GoError.other 2), [])
    ∧ (verifyIncomingBlock
        (fun _ (_ : Unit) (_ : Unit) => some (GoError.other 1))
        (fun s => s) (fun _ => Except.error (GoError.other 2)) true false () ()
        3 [4]).1 ≠ some (GoError.other 1) :=
  ⟨(verifyIncomingBlock_header_error_masks_rejection
      (fun _ (_ : Unit) (_ : Unit) => some (GoError.other 1)) (fun s => s)
      (fun _ => Except.error (GoError.other 2)) () () 3 [4] (GoError.other 1)
      (GoError.other 2) rfl rfl).1,
    (verifyIncomingBlock_header_error_masks_rejection
      (fun _ (_ : Unit) (_ : Unit) => some (GoError.other 1)) (fun s => s)
      (fun _ => Except.error (GoError.other 2)) () () 3 [4] (GoError.other 1)
      (GoError.other 2) rfl rfl).2 (by decide)⟩

/-- C10 counterexample: `WithContext` shallow-copies the struct
(`cpy := *s`), so a `StateDB` obtained via `WithContext` from a `Copy`
carries the copy's non-nil write closure — refuting the claim that
every store obtained via `New` or `WithContext` has a nil write
function. -/
theorem withContext_carries_write_closure :
    ¬ ((withContext (copy (withContext newStateDB sampleParent))
        { base := [], buffered := [] }).write = false) := by
  decide

/-- C10 amended: a `StateDB` from `New` has a nil write closure and its
`Save` is a no-op; `WithContext` preserves the receiver's write
closure, so a `WithContext` of a `New`-derived store also has a nil
write and a no-op `Save`, while a `WithContext` of a `Copy` inherits
the non-nil closure; `Copy` installs a non-nil write whose `Save`
publishes the branch's buffered writes to the parent. -/
theorem save_noop_only_without_write :
    (newStateDB.write = false)
    ∧ (∀ parent : SdkContext, save newStateDB parent = parent)
    ∧ (∀ (s : StateDB) (c : SdkContext), (withContext s c).write = s.write)
    ∧ (∀ (s : StateDB) (c parent : SdkContext), s.write = false →
        save (withContext s c) parent = parent)
    ∧ (∀ s : StateDB, (copy s).write = true)
    ∧ (∀ (d : StateDB) (parent : SdkContext) (k v : Nat),
        ctxGet (save (stateDBSet (copy (withContext d parent)) k v) parent) k
          = some v) := by
  refine ⟨rfl, fun parent => rfl, fun s c => rfl, ?_, fun s => rfl, ?_⟩
  · intro s c parent hw
    simp [save, withContext, hw]
  · intro d parent k v
    simp [save, stateDBSet, copy, withContext, cacheContext, writeBack,
      ctxSet, ctxGet, lookupKV]

/-- C10 amended witness: a `WithContext` of a fresh store has a no-op
`Save`, while a branch write published through `Copy`'s closure becomes
visible in the parent. -/
theorem save_noop_only_without_write_witness :
    save (withContext newStateDB { base := [], buffered := [] }) sampleParent
      = sampleParent
    ∧ ctxGet (save (stateDBSet (copy (withContext newStateDB sampleParent))
        0 1) sampleParent) 0 = some 1 :=
  ⟨save_noop_only_without_write.2.2.2.1 newStateDB
      { base := [], buffered := [] } sampleParent rfl,
    save_noop_only_without_write.2.2.2.2.2 newStateDB sampleParent 0 1⟩

end BeaconKit
